import Mathlib

/-!
Verification of `src/leave_tracket/rag_with_postgres.py`, the HR query-routing
module.  The Python functions are shallowly embedded: external effects (the
SQLAlchemy engine, the Chroma collection, the LLM chat service, the console)
become explicit environment records, a raised Python exception whose `str` is
`e` becomes `Except.error e`, and the mutable connection pool becomes an
explicit state record that counts `db.dispose()` calls.
-/

/-- Python `needle in haystack` character-list prefix test helper. -/
def hasPrefixChars : List Char → List Char → Bool
  | [], _ => true
  | _ :: _, [] => false
  | a :: as, b :: bs => a = b && hasPrefixChars as bs

/-- Python `needle in haystack` character-list containment helper. -/
def hasInfixChars (n : List Char) : List Char → Bool
  | [] => hasPrefixChars n []
  | b :: bs => hasPrefixChars n (b :: bs) || hasInfixChars n bs

/-- Python substring test `needle in s`, as used by the source in
`"InFailedSqlTransaction" in str(e)`. -/
def pyIn (needle s : String) : Bool :=
  hasInfixChars needle.data s.data

/-- Python `str.strip()`: drop leading and trailing whitespace. -/
def pyStrip (s : String) : String :=
  ⟨((s.data.dropWhile Char.isWhitespace).reverse.dropWhile Char.isWhitespace).reverse⟩

/-- Python `str.lower()`: lowercase every character. -/
def pyLower (s : String) : String :=
  ⟨s.data.map Char.toLower⟩

/-- Whether the string contains a decimal digit; used to state that a message
fabricates no number. -/
def strHasDigit (s : String) : Bool :=
  s.data.any Char.isDigit

namespace RagWithPostgres

/-- Behaviour of the backing stores during one call: `connectPing` is the
`SELECT 1` round trip issued by `check_database_connection`; `lookup` is the
`SELECT leaves_taken_current_year FROM employee_leaves WHERE employee_name = :emp`
read of `get_leave_used` (`Except.ok none` = no row, `Except.error e` = the
read raised an exception with text `e`); `disposeErr` is `some e` when
`db.dispose()` itself raises. -/
structure Env where
  connectPing : Except String Unit
  lookup : String → Except String (Option Nat)
  disposeErr : Option String

/-- Instrumented state of the shared SQLAlchemy engine: how many times
`db.dispose()` (a connection-pool reset) has run. -/
structure PoolState where
  disposeCount : Nat
deriving DecidableEq

/-- `db.dispose()`: discards the connection pool (counted), or raises. -/
def dispose (env : Env) (st : PoolState) : Except String PoolState :=
  match env.disposeErr with
  | none => Except.ok ⟨st.disposeCount + 1⟩
  | some e => Except.error e

/-- `check_database_connection` (source lines 75 to 86): run `SELECT 1`; on
success return `True`; on any exception print the issue, call `db.dispose()`
and return `False`.  The `db.dispose()` inside the `except` block is a bare
call, so if it raised, the exception would escape this function: that is the
`Except.error` case here. -/
def check_database_connection (env : Env) (st : PoolState) :
    Except String (Bool × PoolState) :=
  match env.connectPing with
  | Except.ok _ => Except.ok (true, st)
  | Except.error _ =>
    match dispose env st with
    | Except.ok st1 => Except.ok (false, st1)
    | Except.error e => Except.error e

/-- `reset_database_connection` (source lines 88 to 96): call `db.dispose()`
inside try and except, returning `True` on success and `False` on an
exception (which it swallows). -/
def reset_database_connection (env : Env) (st : PoolState) : Bool × PoolState :=
  match dispose env st with
  | Except.ok st1 => (true, st1)
  | Except.error _ => (false, st)

/-- Source line 112: message returned when the pre-flight health check fails. -/
def healthFailMsg : String :=
  "Database connection unavailable. Please try again."

/-- Source line 126: success message reporting the used days. -/
def usedMsg (emp : String) (n : Nat) : String :=
  emp ++ " has used " ++ toString n ++ " days of annual leave this year."

/-- Source line 127: message returned when the lookup finds no row. -/
def noRecordMsg (emp : String) : String :=
  "No leave record found for " ++ emp ++ "."

/-- Source line 133: message returned after a transaction-abort exception and
the pool reset; `e` is the exception text appended by the f-string. -/
def transientMsg (e : String) : String :=
  "Database transaction error occurred. Connection reset. Please try again: " ++ e

/-- Source line 134: message for any other exception caught in
`get_leave_used`. -/
def readErrMsg (e : String) : String :=
  "Error retrieving leave usage: " ++ e

/-- Result of one `get_leave_used` call: the returned string, the pool state
after the call, and whether the `employee_leaves` read was actually issued
(instrumentation recording which branch ran, used to state the health-check
gating property). -/
structure ReadTrace where
  result : String
  st : PoolState
  readAttempted : Bool
deriving DecidableEq

namespace HRPlugin

/-- The `except Exception as e:` handler of `HRPlugin.get_leave_used` (source
lines 129 to 134): if the exception text contains `InFailedSqlTransaction`,
call `reset_database_connection()` once and return the transient message,
otherwise return the generic read-error message. -/
def leaveUsedHandler (env : Env) (e : String) (st : PoolState)
    (attempted : Bool) : ReadTrace :=
  if pyIn "InFailedSqlTransaction" e then
    let r := reset_database_connection env st
    ⟨transientMsg e, r.2, attempted⟩
  else
    ⟨readErrMsg e, st, attempted⟩

/-- `HRPlugin.get_leave_used` (source lines 105 to 134), the only
structured-store read among the plugin methods: first
`check_database_connection()`; if it returns `False`, answer with the
unavailable message without issuing the read; otherwise run the
`employee_leaves` lookup and format the row, or the no-record message.  Any
exception raised inside the try block (including one escaping
`check_database_connection`) reaches the handler. -/
def get_leave_used (env : Env) (emp : String) (st : PoolState) : ReadTrace :=
  match check_database_connection env st with
  | Except.error e => leaveUsedHandler env e st false
  | Except.ok (false, st1) => ⟨healthFailMsg, st1, false⟩
  | Except.ok (true, st1) =>
    match env.lookup emp with
    | Except.ok (some n) => ⟨usedMsg emp n, st1, true⟩
    | Except.ok none => ⟨noRecordMsg emp, st1, true⟩
    | Except.error e => leaveUsedHandler env e st1 true

end HRPlugin

/-- Behaviour of the Chroma collection for one call:
`collection.query(query_texts=[q], n_results=1)["documents"]` is a list of
per-query document lists, or a raised exception. -/
structure ChromaEnv where
  query : String → Except String (List (List String))

namespace HRPlugin

/-- `HRPlugin.query_policy` (source lines 161 to 171): query the collection
with the given text; if the documents list is truthy return
`documents[0][0]`, else the no-policy message; exceptions (including the
IndexError raised by `[0]` on an empty inner list) become the error
message. -/
def query_policy (env : ChromaEnv) (q : String) : String :=
  match env.query q with
  | Except.error e => "Error retrieving policy information: " ++ e
  | Except.ok [] => "No relevant policy found."
  | Except.ok ((t :: _) :: _) => t
  | Except.ok ([] :: _) =>
    "Error retrieving policy information: list index out of range"

/-- `HRPlugin.query_policy_for_employee` (source lines 176 to 186): takes an
extra `employee_name` argument but runs byte-for-byte the same body as
`query_policy`; the employee name is never consulted. -/
def query_policy_for_employee (env : ChromaEnv) (employee_name q : String) :
    String :=
  match env.query q with
  | Except.error e => "Error retrieving policy information: " ++ e
  | Except.ok [] => "No relevant policy found."
  | Except.ok ((t :: _) :: _) => t
  | Except.ok ([] :: _) =>
    "Error retrieving policy information: list index out of range"

end HRPlugin

/-- The attribute (method) names the class `HRPlugin` defines (source lines
101 to 186). -/
def hrPluginMethodNames : List String :=
  ["get_leave_used", "get_total_leave_entitlement", "query_policy",
   "query_policy_for_employee"]

/-- Module-level `get_leave_balance` (source lines 255 to 258): constructs an
`HRPlugin` and evaluates `hr_plugin.get_leave_balance(employee_name)`.
Python attribute lookup raises `AttributeError` when neither the instance nor
the class defines the attribute; `HRPlugin` defines only
`hrPluginMethodNames`, which does not include `get_leave_balance`, so the
lookup raises before any call happens.  The `Except.ok` branch is guarded by
a condition that evaluates to `false`; it is unreachable because there is no
method body to dispatch to. -/
def get_leave_balance (employee_name : String) : Except String String :=
  if hrPluginMethodNames.contains "get_leave_balance" then
    Except.ok employee_name
  else
    Except.error "AttributeError: HRPlugin object has no attribute get_leave_balance"

/-- Module-level `query_policy` (source lines 260 to 263): constructs an
`HRPlugin` and delegates to its `query_policy` method, which exists. -/
def query_policy_module (env : ChromaEnv) (q : String) : String :=
  HRPlugin.query_policy env q

/-- The exit tokens recognised by `interactive_hr_assistant` (source line
278). -/
def exitTokens : List String :=
  ["quit", "exit", "bye", "goodbye"]

/-- What one iteration of the `while True:` body of `interactive_hr_assistant`
(source lines 274 to 298) decides for a console line. -/
inductive TurnOutcome
  | exitLoop
  | reprompt
  | answered (response : String)
  | errorReported (e : String)
deriving DecidableEq

/-- One iteration of the read loop (source lines 274 to 298): strip the line;
if its lowercase form is an exit token, break; if it is empty, re-prompt
without dispatching; otherwise await `rag_query_semantic` on it, where `rag`
gives that awaited behaviour (`Except.error e` = the call raised and the
per-turn `except` handler reports `e` and continues). -/
def interactiveTurn (rag : String → Except String String) (line : String) :
    TurnOutcome :=
  let user_input := pyStrip line
  if exitTokens.contains (pyLower user_input) then TurnOutcome.exitLoop
  else if user_input = "" then TurnOutcome.reprompt
  else
    match rag user_input with
    | Except.ok r => TurnOutcome.answered r
    | Except.error e => TurnOutcome.errorReported e

/-- The read loop of `interactive_hr_assistant` over a finite console input
stream: consume lines until an exit token (or the stream ends), collecting the
outcome of every turn; a re-prompt or a reported per-turn error continues with
the next line. -/
def interactive_hr_assistant (rag : String → Except String String) :
    List String → List TurnOutcome
  | [] => []
  | line :: rest =>
    match interactiveTurn rag line with
    | TurnOutcome.exitLoop => [TurnOutcome.exitLoop]
    | TurnOutcome.reprompt =>
      TurnOutcome.reprompt :: interactive_hr_assistant rag rest
    | TurnOutcome.answered r =>
      TurnOutcome.answered r :: interactive_hr_assistant rag rest
    | TurnOutcome.errorReported e =>
      TurnOutcome.errorReported e :: interactive_hr_assistant rag rest

/-- Modelled from the spec: a Query Session transcript entry (spec section 3).
The decision and execution loop itself is absent from `src/`:
`rag_query_semantic` delegates it to the external Semantic Kernel
auto-function-calling integration, so the Router protocol of spec section 4.3
is embedded from the words of the spec. -/
inductive Entry
  | system (text : String)
  | user (text : String)
  | invocation (name args result : String)
deriving DecidableEq

/-- Modelled from the spec: the decision the external reasoning engine returns
in state AwaitingDecision (spec section 4.3): either a final answer with zero
capability invocations, or one or more capability invocations as pairs of
capability name and arguments. -/
inductive Decision
  | finalAnswer (text : String)
  | invokeCalls (calls : List (String × String))

/-- Modelled from the spec: outcome of the Router loop (spec sections 4.3 and
7): a finalized answer, or the RoutingExhausted degraded answer once the
bounded maximum round count is exceeded. -/
inductive RouterOutcome
  | finalized (answer : String)
  | routingExhausted (degraded : String)
deriving DecidableEq

/-- Modelled from the spec: the degraded answer noting incomplete information
returned on RoutingExhausted (spec section 4.3). -/
def routingExhaustedMsg : String :=
  "RoutingExhausted: incomplete information, the round cap was exceeded."

/-- Modelled from the spec: the Router decision and execution loop of spec
section 4.3, missing from `src/`.  `engine` is the external reasoning engine
(transcript to decision), `execCap` executes one capability invocation,
`maxRounds` is the configured bounded maximum round count.  Each round
consults the engine; a final answer finalizes, otherwise the requested
invocations are executed, appended to the transcript, and the loop continues.
The second component counts the rounds actually run. -/
def routerLoop (engine : List Entry → Decision)
    (execCap : String → String → String) :
    Nat → List Entry → RouterOutcome × Nat
  | 0, _ => (RouterOutcome.routingExhausted routingExhaustedMsg, 0)
  | n + 1, transcript =>
    match engine transcript with
    | Decision.finalAnswer t => (RouterOutcome.finalized t, 1)
    | Decision.invokeCalls calls =>
      let entries := calls.map fun c => Entry.invocation c.1 c.2 (execCap c.1 c.2)
      let r := routerLoop engine execCap n (transcript ++ entries)
      (r.1, r.2 + 1)

end RagWithPostgres

namespace RagWithPostgres

/-- Strings with different first characters are different. -/
theorem string_ne_of_head {s t : String} {c d : Char}
    (hs : s.data.head? = some c) (ht : t.data.head? = some d) (hcd : c ≠ d) :
    s ≠ t := by
  intro h
  subst h
  rw [hs] at ht
  exact hcd (Option.some.inj ht)

/-- The no-record message starts with the letter N. -/
theorem head_noRecordMsg (emp : String) :
    (noRecordMsg emp).data.head? = some 'N' := rfl

/-- The transaction-abort message starts with the letter D. -/
theorem head_transientMsg (e : String) :
    (transientMsg e).data.head? = some 'D' := rfl

/-- The generic read-error message starts with the letter E. -/
theorem head_readErrMsg (e : String) :
    (readErrMsg e).data.head? = some 'E' := rfl

/-- The no-record message contains a digit exactly when the employee name
does: its fixed parts carry no digit. -/
theorem strHasDigit_noRecordMsg (emp : String) :
    strHasDigit (noRecordMsg emp) = strHasDigit emp := by
  have h1 : "No leave record found for ".data.any Char.isDigit = false := by decide
  have h2 : ".".data.any Char.isDigit = false := by decide
  simp [strHasDigit, noRecordMsg, String.data_append, List.any_append, h1, h2]

end RagWithPostgres

namespace RagWithPostgres

/-- Claim C2: the claim says the module-level legacy `get_leave_balance`
returns the balance or a NotFound-style result without raising; the code
instead raises `AttributeError` for every employee name, because `HRPlugin`
defines no method named `get_leave_balance`. -/
theorem c2_get_leave_balance_always_raises (emp : String) :
    get_leave_balance emp =
      Except.error
        "AttributeError: HRPlugin object has no attribute get_leave_balance" := rfl

/-- Claim C6: the claim says no raw exception propagates from any public
entry point; evaluated at the concrete input Bob, the legacy entry point
`get_leave_balance` propagates a raw `AttributeError` to its caller. -/
theorem c6_entry_point_raises_attribute_error :
    get_leave_balance "Bob" =
      Except.error
        "AttributeError: HRPlugin object has no attribute get_leave_balance" := rfl

/-- Claim C10: when the health-check round trip fails (and `db.dispose()`
itself does not raise), `check_database_connection` disposes the connection
pool exactly once as a side effect and returns false. -/
theorem c10_failed_health_check_disposes_pool (env : Env) (st : PoolState)
    (msg : String) (hping : env.connectPing = Except.error msg)
    (hdisp : env.disposeErr = none) :
    check_database_connection env st =
      Except.ok (false, ⟨st.disposeCount + 1⟩) := by
  simp [check_database_connection, hping, dispose, hdisp]

/-- Witness for claim C10 at a concrete environment with a failing ping. -/
theorem c10_failed_health_check_disposes_pool_witness :
    (⟨Except.error "connection refused", fun _ => Except.ok (some 5), none⟩ :
        Env).connectPing = Except.error "connection refused" ∧
    check_database_connection
        ⟨Except.error "connection refused", fun _ => Except.ok (some 5), none⟩
        ⟨0⟩ = Except.ok (false, ⟨0 + 1⟩) :=
  ⟨rfl, c10_failed_health_check_disposes_pool
    ⟨Except.error "connection refused", fun _ => Except.ok (some 5), none⟩
    ⟨0⟩ "connection refused" rfl rfl⟩

/-- Claim C5: a structured-store read (`get_leave_used`, the only one) first
runs the health check; when the check fails the call answers with the
store-unavailable message and the `employee_leaves` read is never issued. -/
theorem c5_health_gate_short_circuits_read (env : Env) (emp : String)
    (st : PoolState) (msg : String)
    (hping : env.connectPing = Except.error msg)
    (hdisp : env.disposeErr = none) :
    (HRPlugin.get_leave_used env emp st).result = healthFailMsg ∧
    (HRPlugin.get_leave_used env emp st).readAttempted = false := by
  have hchk : check_database_connection env st =
      Except.ok (false, ⟨st.disposeCount + 1⟩) := by
    simp [check_database_connection, hping, dispose, hdisp]
  constructor <;> simp [HRPlugin.get_leave_used, hchk]

/-- Witness for claim C5 at a concrete environment with a failing ping. -/
theorem c5_health_gate_short_circuits_read_witness :
    (⟨Except.error "timeout", fun _ => Except.ok (some 3), none⟩ :
        Env).connectPing = Except.error "timeout" ∧
    (HRPlugin.get_leave_used
        ⟨Except.error "timeout", fun _ => Except.ok (some 3), none⟩ "Alice"
        ⟨0⟩).result = healthFailMsg ∧
    (HRPlugin.get_leave_used
        ⟨Except.error "timeout", fun _ => Except.ok (some 3), none⟩ "Alice"
        ⟨0⟩).readAttempted = false :=
  ⟨rfl,
   (c5_health_gate_short_circuits_read
     ⟨Except.error "timeout", fun _ => Except.ok (some 3), none⟩ "Alice" ⟨0⟩
     "timeout" rfl rfl).1,
   (c5_health_gate_short_circuits_read
     ⟨Except.error "timeout", fun _ => Except.ok (some 3), none⟩ "Alice" ⟨0⟩
     "timeout" rfl rfl).2⟩

end RagWithPostgres

namespace RagWithPostgres

/-- Claim C4: after a successful health check, a read failure whose exception
text contains `InFailedSqlTransaction` triggers exactly one pool reset
(`disposeCount` grows by one), and the returned transient message differs
from the health-check-failure message; the call returns normally instead of
crashing. -/
theorem c4_transaction_abort_resets_pool_once (env : Env) (emp e : String)
    (st : PoolState)
    (hping : env.connectPing = Except.ok ())
    (hread : env.lookup emp = Except.error e)
    (habort : pyIn "InFailedSqlTransaction" e = true)
    (hdisp : env.disposeErr = none) :
    (HRPlugin.get_leave_used env emp st).st.disposeCount =
      st.disposeCount + 1 ∧
    (HRPlugin.get_leave_used env emp st).result = transientMsg e ∧
    (HRPlugin.get_leave_used env emp st).result ≠ healthFailMsg := by
  have hrun : HRPlugin.get_leave_used env emp st =
      ⟨transientMsg e, ⟨st.disposeCount + 1⟩, true⟩ := by
    simp [HRPlugin.get_leave_used, check_database_connection, hping, hread,
      HRPlugin.leaveUsedHandler, habort, reset_database_connection, dispose,
      hdisp]
  refine ⟨by rw [hrun], by rw [hrun], ?_⟩
  rw [hrun]
  intro h
  have hlen := congrArg String.length h
  rw [transientMsg, String.length_append] at hlen
  have h73 :
      ("Database transaction error occurred. Connection reset. Please try again: " :
        String).length = 73 := rfl
  have h50 : healthFailMsg.length = 50 := rfl
  rw [h73, h50] at hlen
  omega

/-- Witness for claim C4 at a concrete aborted-transaction environment. -/
theorem c4_transaction_abort_resets_pool_once_witness :
    pyIn "InFailedSqlTransaction"
      "psycopg2.errors.InFailedSqlTransaction: current transaction is aborted"
      = true ∧
    (HRPlugin.get_leave_used
        ⟨Except.ok (),
         fun _ => Except.error
           "psycopg2.errors.InFailedSqlTransaction: current transaction is aborted",
         none⟩ "Alice" ⟨0⟩).st.disposeCount = 0 + 1 :=
  ⟨by decide,
   (c4_transaction_abort_resets_pool_once
     ⟨Except.ok (),
      fun _ => Except.error
        "psycopg2.errors.InFailedSqlTransaction: current transaction is aborted",
      none⟩ "Alice"
     "psycopg2.errors.InFailedSqlTransaction: current transaction is aborted"
     ⟨0⟩ rfl rfl (by decide) rfl).1⟩

/-- Claim C7: when the health check passes and the `employee_leaves` lookup
returns no row, `get_leave_used` answers with the no-record message, which is
not one of the error messages and carries a digit only if the employee name
itself does, so no numeric balance is fabricated. -/
theorem c7_missing_record_yields_not_found (env : Env) (emp : String)
    (st : PoolState)
    (hping : env.connectPing = Except.ok ())
    (hread : env.lookup emp = Except.ok none) :
    (HRPlugin.get_leave_used env emp st).result = noRecordMsg emp ∧
    strHasDigit (noRecordMsg emp) = strHasDigit emp ∧
    (∀ e, noRecordMsg emp ≠ transientMsg e) ∧
    (∀ e, noRecordMsg emp ≠ readErrMsg e) ∧
    noRecordMsg emp ≠ healthFailMsg := by
  refine ⟨?_, strHasDigit_noRecordMsg emp, ?_, ?_, ?_⟩
  · simp [HRPlugin.get_leave_used, check_database_connection, hping, hread]
  · intro e
    exact string_ne_of_head (head_noRecordMsg emp) (head_transientMsg e)
      (by decide)
  · intro e
    exact string_ne_of_head (head_noRecordMsg emp) (head_readErrMsg e)
      (by decide)
  · exact string_ne_of_head (head_noRecordMsg emp)
      (show healthFailMsg.data.head? = some 'D' from rfl) (by decide)

/-- Witness for claim C7 at a concrete environment with no row for Bob. -/
theorem c7_missing_record_yields_not_found_witness :
    (⟨Except.ok (), fun _ => Except.ok none, none⟩ : Env).connectPing =
      Except.ok () ∧
    (HRPlugin.get_leave_used ⟨Except.ok (), fun _ => Except.ok none, none⟩
        "Bob" ⟨0⟩).result = noRecordMsg "Bob" :=
  ⟨rfl,
   (c7_missing_record_yields_not_found
     ⟨Except.ok (), fun _ => Except.ok none, none⟩ "Bob" ⟨0⟩ rfl rfl).1⟩

end RagWithPostgres

namespace RagWithPostgres

/-- Claim C9: for every collection behaviour, employee name and query string,
the employee-scoped policy search returns exactly the result of the general
policy search on the same query; the employee name has no effect. -/
theorem c9_policy_search_ignores_employee (env : ChromaEnv)
    (employee_name q : String) :
    HRPlugin.query_policy_for_employee env employee_name q =
      HRPlugin.query_policy env q := by
  unfold HRPlugin.query_policy_for_employee HRPlugin.query_policy
  cases h : env.query q with
  | error e => rfl
  | ok docs =>
    cases docs with
    | nil => rfl
    | cons hd tl =>
      cases hd with
      | nil => rfl
      | cons t ts => rfl

/-- Unfolding equation for `interactiveTurn` with its let binding
zeta-reduced. -/
theorem interactiveTurn_eq (rag : String → Except String String)
    (line : String) :
    interactiveTurn rag line =
      (if exitTokens.contains (pyLower (pyStrip line)) = true then
        TurnOutcome.exitLoop
      else if pyStrip line = "" then TurnOutcome.reprompt
      else
        match rag (pyStrip line) with
        | Except.ok r => TurnOutcome.answered r
        | Except.error e => TurnOutcome.errorReported e) := rfl

/-- Claim C8: one console turn exits exactly when the stripped, lowercased
line is an exit token; an empty stripped line re-prompts and the loop goes on
without dispatching; a raised per-turn error is reported and the loop goes on
with the remaining lines. -/
theorem c8_console_loop (rag : String → Except String String) (line : String)
    (rest : List String) :
    (interactiveTurn rag line = TurnOutcome.exitLoop ↔
      exitTokens.contains (pyLower (pyStrip line)) = true) ∧
    (pyStrip line = "" →
      interactiveTurn rag line = TurnOutcome.reprompt ∧
      interactive_hr_assistant rag (line :: rest) =
        TurnOutcome.reprompt :: interactive_hr_assistant rag rest) ∧
    (∀ e, rag (pyStrip line) = Except.error e →
      exitTokens.contains (pyLower (pyStrip line)) = false →
      pyStrip line ≠ "" →
      interactive_hr_assistant rag (line :: rest) =
        TurnOutcome.errorReported e :: interactive_hr_assistant rag rest) := by
  refine ⟨?_, ?_, ?_⟩
  · rw [interactiveTurn_eq]
    cases hcont : exitTokens.contains (pyLower (pyStrip line)) with
    | true => simp
    | false =>
      apply iff_of_false
      · intro hh
        by_cases hempty : pyStrip line = ""
        · rw [if_pos hempty] at hh
          cases hh
        · rw [if_neg hempty] at hh
          cases hr : rag (pyStrip line) <;> rw [hr] at hh <;> simp at hh
      · exact Bool.false_ne_true
  · intro hempty
    have ht : interactiveTurn rag line = TurnOutcome.reprompt := by
      rw [interactiveTurn_eq, hempty]
      rw [if_neg (by decide), if_pos rfl]
    exact ⟨ht, by simp [interactive_hr_assistant, ht]⟩
  · intro e hrag hcont hne
    have ht : interactiveTurn rag line = TurnOutcome.errorReported e := by
      rw [interactiveTurn_eq]
      rw [if_neg (by rw [hcont]; exact Bool.false_ne_true), if_neg hne, hrag]
    simp [interactive_hr_assistant, ht]

/-- Witness for claim C8: with a reasoning call that always raises, the line
" hi " is dispatched, its error reported, and the loop continues. -/
theorem c8_console_loop_witness :
    (fun q => Except.error ("fail: " ++ q) : String → Except String String)
        (pyStrip " hi ") = Except.error "fail: hi" ∧
    interactive_hr_assistant (fun q => Except.error ("fail: " ++ q))
        (" hi " :: ["quit"]) =
      TurnOutcome.errorReported "fail: hi" ::
        interactive_hr_assistant (fun q => Except.error ("fail: " ++ q))
          ["quit"] :=
  ⟨rfl,
   (c8_console_loop (fun q => Except.error ("fail: " ++ q)) " hi "
     ["quit"]).2.2 "fail: hi" rfl (by decide) (by decide)⟩

/-- Claim C3 (Router protocol modelled from the spec): the loop runs at most
the configured maximum number of rounds, and with a reasoning engine that
requests another capability call on every round it ends with the
RoutingExhausted degraded answer rather than looping forever. -/
theorem c3_router_round_cap (engine : List Entry → Decision)
    (execCap : String → String → String) (maxRounds : Nat)
    (transcript : List Entry) :
    (routerLoop engine execCap maxRounds transcript).2 ≤ maxRounds ∧
    ((∀ t, ∃ cs, engine t = Decision.invokeCalls cs) →
      (routerLoop engine execCap maxRounds transcript).1 =
        RouterOutcome.routingExhausted routingExhaustedMsg) := by
  induction maxRounds generalizing transcript with
  | zero => exact ⟨by simp [routerLoop], fun _ => by simp [routerLoop]⟩
  | succ n ih =>
    cases hd : engine transcript with
    | finalAnswer t =>
      refine ⟨by simp [routerLoop, hd], fun hall => ?_⟩
      rcases hall transcript with ⟨cs, hcs⟩
      rw [hd] at hcs
      cases hcs
    | invokeCalls calls =>
      have hrec := ih
        (transcript ++ calls.map fun c => Entry.invocation c.1 c.2 (execCap c.1 c.2))
      refine ⟨?_, fun hall => ?_⟩
      · have h1 := hrec.1
        simp only [routerLoop, hd]
        omega
      · have h2 := hrec.2 hall
        simp only [routerLoop, hd]
        exact h2

/-- Witness for claim C3: an engine stub that always requests one more
capability call makes a five-round router end RoutingExhausted. -/
theorem c3_router_round_cap_witness :
    (routerLoop (fun _ => Decision.invokeCalls [("get_leave_used", "Alice")])
        (fun _ _ => "Alice has used 5 days of annual leave this year.") 5
        []).1 = RouterOutcome.routingExhausted routingExhaustedMsg :=
  (c3_router_round_cap
    (fun _ => Decision.invokeCalls [("get_leave_used", "Alice")])
    (fun _ _ => "Alice has used 5 days of annual leave this year.") 5
    []).2 (fun _ => ⟨[("get_leave_used", "Alice")], rfl⟩)

end RagWithPostgres
